import Mathlib

/-!
Shallow embedding of the `smart-house` Rust library (`src/lib.rs`).

Conventions of the embedding:
* Rust `f32` values are modelled as rationals (`ℚ`): the library never does
  arithmetic on them beyond storing, comparing with `0.0`, formatting and
  parsing, so a value type with a distinguished `0` is all that is needed.
* Rust's `f32::to_string` formatting and `str::parse::<f32>` are modelled as
  abstract functions `fmt : ℚ → String` and `parse : String → Option ℚ`;
  theorems quantify over them (and assume a round-trip where the code needs it).
* Rust `str::trim` is modelled by `rustTrim`: drop leading and trailing
  whitespace characters.
* A Rust `Result<T, E>` is `Except E T`; `Option` marks fallible parses.
* State behind `Arc<Mutex<...>>` is passed explicitly: a method taking
  `&mut self` becomes a function returning the new state.
-/

/-- Model of Rust `str::trim`: remove leading and trailing whitespace. -/
def rustTrim (s : String) : String :=
  ⟨((s.data.dropWhile Char.isWhitespace).reverse.dropWhile Char.isWhitespace).reverse⟩

/-- The shared socket state `(bool, f32)` stored by both `MockSocketDriver`
and the TCP socket emulator (`Arc<Mutex<(bool, f32)>>` in the source). -/
structure SockState where
  powered : Bool
  wattage : ℚ
deriving DecidableEq, Repr

namespace MockSocketDriver

/-- `MockSocketDriver::turn_on`: sets the boolean to `true`, always `Ok`. -/
def turn_on (st : SockState) : SockState × Except String Unit :=
  ({ st with powered := true }, .ok ())

/-- `MockSocketDriver::turn_off`: sets the boolean to `false`, always `Ok`. -/
def turn_off (st : SockState) : SockState × Except String Unit :=
  ({ st with powered := false }, .ok ())

/-- `MockSocketDriver::is_on`: returns the stored boolean, always `Ok`. -/
def is_on (st : SockState) : Except String Bool :=
  .ok st.powered

/-- `MockSocketDriver::current_power`: `Ok(if on { power } else { 0.0 })`. -/
def current_power (st : SockState) : Except String ℚ :=
  .ok (if st.powered then st.wattage else 0)

end MockSocketDriver

/-- The TCP emulator's command dispatch: the `match cmd.as_str()` inside
`handle_client`, acting on the trimmed command string. Returns the new
stored state and the reply written to the stream. `fmt` models Rust's
`f32::to_string` used for the `POWER` reply. -/
def dispatch (fmt : ℚ → String) (st : SockState) (cmd : String) :
    SockState × String :=
  if cmd = "ON" then ({ st with powered := true }, "OK")
  else if cmd = "OFF" then ({ st with powered := false }, "OK")
  else if cmd = "POWER" then (st, fmt (if st.powered then st.wattage else 0))
  else if cmd = "STATE" then (st, if st.powered then "ON" else "OFF")
  else (st, "ERR")

/-- `handle_client`: decode the received bytes (lossy UTF-8, modelled as the
already-decoded string `raw`), trim, and dispatch on the command. -/
def handle_client (fmt : ℚ → String) (st : SockState) (raw : String) :
    SockState × String :=
  dispatch fmt st (rustTrim raw)

namespace TcpSocketDriver

/-- `TcpSocketDriver::is_on` decoding of the peer response:
`Ok(resp.trim() == "ON")`. The network round trip itself is modelled
separately; this is the pure decode applied to whatever string the peer
returned. -/
def is_on (resp : String) : Bool :=
  rustTrim resp == "ON"

/-- `TcpSocketDriver::current_power` decoding of the peer response:
`Ok(resp.trim().parse()?)`. `parse` models `str::parse::<f32>`; `none`
is the parse error propagated by `?`. -/
def current_power (parse : String → Option ℚ) (resp : String) : Option ℚ :=
  parse (rustTrim resp)

end TcpSocketDriver

namespace UdpThermometerDriver

/-- One iteration of the background listener loop in
`UdpThermometerDriver::new`, after `recv_from` succeeded. The payload is
given post-UTF-8-decoding: `none` models bytes that are not valid UTF-8
(`from_utf8` failed), `some s` the decoded text. On a successful parse of
the trimmed text the cache is overwritten; otherwise it is untouched. -/
def listenStep (parse : String → Option ℚ) (cache : Option ℚ)
    (payload : Option String) : Option ℚ :=
  match payload with
  | none => cache
  | some s =>
    match parse (rustTrim s) with
    | some temp => some temp
    | none => cache

/-- `UdpThermometerDriver::latest_temperature`:
`self.latest_temp.lock().unwrap().ok_or_else(|| "Нет данных от термометра".into())`. -/
def latest_temperature (cache : Option ℚ) : Except String ℚ :=
  match cache with
  | some t => .ok t
  | none => .error "Нет данных от термометра"

end UdpThermometerDriver

/-- Outcome of a facade control operation: `.expect(msg)` either returns
`()` or panics with `msg`. -/
inductive CtlOutcome
  | ok
  | fault (msg : String)
deriving DecidableEq, Repr

namespace SmartSocket

/-- `SmartSocket::turn_on`: `self.driver.turn_on().expect("Ошибка включения розетки")`,
as a function of the driver's result. -/
def turn_on (r : Except String Unit) : CtlOutcome :=
  match r with
  | .ok _ => .ok
  | .error _ => .fault "Ошибка включения розетки"

/-- `SmartSocket::turn_off`: `self.driver.turn_off().expect("Ошибка выключения розетки")`. -/
def turn_off (r : Except String Unit) : CtlOutcome :=
  match r with
  | .ok _ => .ok
  | .error _ => .fault "Ошибка выключения розетки"

/-- `SmartSocket::is_on`: `self.driver.is_on().unwrap_or_else(|_| false)`. -/
def is_on (r : Except String Bool) : Bool :=
  match r with
  | .ok b => b
  | .error _ => false

/-- `SmartSocket::current_power`: `self.driver.current_power().unwrap_or_else(|_| 0.0)`. -/
def current_power (r : Except String ℚ) : ℚ :=
  match r with
  | .ok p => p
  | .error _ => 0

end SmartSocket

namespace SmartThermometer

/-- `SmartThermometer::get_current_temperature` (the `Thermometer` impl):
`self.driver.latest_temperature().unwrap_or_else(|_| 0.0)`. -/
def get_current_temperature (r : Except String ℚ) : ℚ :=
  match r with
  | .ok t => t
  | .error _ => 0

end SmartThermometer

/-- `SmartDevice`: a thermometer or a socket. The held drivers are irrelevant
to the containment claims, so a device is carried by its identity fields. -/
inductive SmartDevice
  | Thermometer (name location : String)
  | Socket (name : String)
deriving DecidableEq, Repr

/-- `Room`: a name and a keyed device map (`HashMap<String, SmartDevice>`,
modelled as an association list queried with `mapGet`). -/
structure Room where
  name : String
  devices : List (String × SmartDevice)
deriving DecidableEq, Repr

/-- `SmartHouseError`. -/
inductive SmartHouseError
  | RoomNotFound (room : String)
  | DeviceNotFound (room device : String)
deriving DecidableEq, Repr

/-- `SmartHouse`: keyed room map. -/
structure SmartHouse where
  rooms : List (String × Room)
deriving DecidableEq, Repr

/-- Keyed map access, the model of `HashMap::get`. -/
def mapGet {α : Type} (k : String) : List (String × α) → Option α
  | [] => none
  | (k', v) :: rest => if k = k' then some v else mapGet k rest

/-- `SmartHouse::get_device`: look the room up by name (else
`RoomNotFound`), then the device inside it (else `DeviceNotFound`). A
read-only `&self` method: the house is not modified. -/
def SmartHouse.get_device (h : SmartHouse) (room_name device_name : String) :
    Except SmartHouseError SmartDevice :=
  match mapGet room_name h.rooms with
  | none => .error (.RoomNotFound room_name)
  | some r =>
    match mapGet device_name r.devices with
    | none => .error (.DeviceNotFound room_name device_name)
    | some d => .ok d

/-- A `turn_on`/`turn_off` call, for stating sequence properties. -/
inductive Call
  | on
  | off
deriving DecidableEq, Repr

/-- Effect of one mock-driver call on the stored state (the driver's
`Result` is always `Ok` and is dropped). -/
def applyCall (st : SockState) : Call → SockState
  | .on => (MockSocketDriver.turn_on st).1
  | .off => (MockSocketDriver.turn_off st).1

/-- Effect of a sequence of mock-driver calls, first to last. -/
def applyCalls (st : SockState) (cs : List Call) : SockState :=
  cs.foldl applyCall st

/-- The command string `TcpSocketDriver::{turn_on,turn_off}` writes. -/
def Call.cmd : Call → String
  | .on => "ON"
  | .off => "OFF"

/-- Effect of one TCP-driver call on the emulator's stored state: the driver
sends the command, the emulator's `handle_client` processes it (the `OK`
reply is ignored by the driver). -/
def emuApplyCall (fmt : ℚ → String) (st : SockState) (c : Call) : SockState :=
  (handle_client fmt st c.cmd).1

/-- Effect of a sequence of TCP-driver calls on the emulator state. -/
def emuApplyCalls (fmt : ℚ → String) (st : SockState) (cs : List Call) : SockState :=
  cs.foldl (emuApplyCall fmt) st

/-- Full `is_on` round trip against the emulator: driver sends `STATE`,
emulator replies, driver decodes the reply. -/
def tcpRoundTripIsOn (fmt : ℚ → String) (st : SockState) : Bool :=
  TcpSocketDriver.is_on (handle_client fmt st "STATE").2

/-- Full `current_power` round trip against the emulator: driver sends
`POWER`, emulator replies, driver parses the trimmed reply. -/
def tcpRoundTripPower (fmt : ℚ → String) (parse : String → Option ℚ)
    (st : SockState) : Option ℚ :=
  TcpSocketDriver.current_power parse (handle_client fmt st "POWER").2

/-- `Call.isOn`: whether a call is `turn_on`, for stating last-write-wins. -/
def Call.isOn : Call → Bool
  | .on => true
  | .off => false

theorem rustTrim_on_lit : rustTrim "ON" = "ON" := by decide

theorem rustTrim_off_lit : rustTrim "OFF" = "OFF" := by decide

theorem rustTrim_state_lit : rustTrim "STATE" = "STATE" := by decide

theorem rustTrim_power_lit : rustTrim "POWER" = "POWER" := by decide

/-- C1: processing a connection carrying `ON` sets `powered` and replies
`OK`; `OFF` clears `powered` and replies `OK`; `STATE` leaves the state
unchanged and replies `ON`/`OFF` by `powered`; `POWER` leaves the state
unchanged and replies the decimal formatting of `wattage` when powered,
else of `0`. -/
theorem emulator_command_semantics (fmt : ℚ → String) (st : SockState) :
    handle_client fmt st "ON" = ({ st with powered := true }, "OK") ∧
    handle_client fmt st "OFF" = ({ st with powered := false }, "OK") ∧
    handle_client fmt st "STATE" = (st, if st.powered then "ON" else "OFF") ∧
    handle_client fmt st "POWER" = (st, fmt (if st.powered then st.wattage else 0)) := by
  refine ⟨?_, ?_, ?_, ?_⟩ <;>
    simp +decide [handle_client, dispatch, rustTrim_on_lit, rustTrim_off_lit,
      rustTrim_state_lit, rustTrim_power_lit]

/-- C2: any received bytes whose trimmed decoding is none of the four
commands get reply `ERR` and leave the stored state unchanged. -/
theorem emulator_unknown_command (fmt : ℚ → String) (st : SockState) (raw : String)
    (h1 : rustTrim raw ≠ "ON") (h2 : rustTrim raw ≠ "OFF")
    (h3 : rustTrim raw ≠ "STATE") (h4 : rustTrim raw ≠ "POWER") :
    handle_client fmt st raw = (st, "ERR") := by
  simp [handle_client, dispatch, h1, h2, h3, h4]

/-- Witness for C2 at the concrete command `HELLO`. -/
theorem emulator_unknown_command_witness :
    rustTrim "HELLO" ≠ "ON" ∧ rustTrim "HELLO" ≠ "OFF" ∧
    rustTrim "HELLO" ≠ "STATE" ∧ rustTrim "HELLO" ≠ "POWER" ∧
    handle_client (fun _ => "0") ⟨false, 5⟩ "HELLO" = (⟨false, 5⟩, "ERR") :=
  ⟨by decide, by decide, by decide, by decide,
    emulator_unknown_command (fun _ => "0") ⟨false, 5⟩ "HELLO"
      (by decide) (by decide) (by decide) (by decide)⟩

/-- C10: `handle_client` trims the (lossily decoded) input before matching,
so whitespace-padded commands behave like the bare literals: in general
processing depends only on the trimmed string, and in particular
`"ON\n"` and `"  OFF "` act exactly like `"ON"` and `"OFF"`. -/
theorem emulator_trims_input (fmt : ℚ → String) (st : SockState) :
    (∀ raw : String, handle_client fmt st raw = dispatch fmt st (rustTrim raw)) ∧
    handle_client fmt st "ON\n" = handle_client fmt st "ON" ∧
    handle_client fmt st "  OFF " = handle_client fmt st "OFF" := by
  refine ⟨fun _ => rfl, ?_, ?_⟩ <;> simp [handle_client] <;> congr 1

/-- C3: the mock driver's `is_on` always succeeds with the stored boolean,
`current_power` always succeeds with `wattage` when powered else `0`,
and in particular the reported power is `0` whenever `powered` is false
(so non-zero power implies powered). -/
theorem mock_driver_reads (st : SockState) :
    MockSocketDriver.is_on st = .ok st.powered ∧
    MockSocketDriver.current_power st = .ok (if st.powered then st.wattage else 0) ∧
    (st.powered = false → MockSocketDriver.current_power st = .ok 0) := by
  refine ⟨rfl, rfl, fun h => ?_⟩
  simp [MockSocketDriver.current_power, h]

/-- Witness for C3 at the powered-off state `(false, 7)`. -/
theorem mock_driver_reads_witness :
    MockSocketDriver.is_on ⟨false, 7⟩ = .ok false ∧
    MockSocketDriver.current_power ⟨false, 7⟩ = .ok 0 :=
  ⟨(mock_driver_reads ⟨false, 7⟩).1, (mock_driver_reads ⟨false, 7⟩).2.2 rfl⟩

/-- C5: the TCP driver's `is_on` is true exactly when the trimmed peer
response is the literal `ON` (false on `OFF`, false on garbage), and its
`current_power` is the floating-point parse of the trimmed response,
failing exactly when that parse fails. -/
theorem tcp_driver_decode (parse : String → Option ℚ) (resp : String) :
    (TcpSocketDriver.is_on resp = true ↔ rustTrim resp = "ON") ∧
    TcpSocketDriver.is_on "OFF" = false ∧
    TcpSocketDriver.is_on "garbage" = false ∧
    TcpSocketDriver.current_power parse resp = parse (rustTrim resp) ∧
    (TcpSocketDriver.current_power parse resp = none ↔ parse (rustTrim resp) = none) := by
  refine ⟨?_, by decide, by decide, rfl, Iff.rfl⟩
  simp [TcpSocketDriver.is_on]

/-- C6: `latest_temperature` returns the cached value when one is present
and fails with the "no data yet" message exactly when the cache is empty;
no other error is possible. -/
theorem udp_latest_temperature_spec (cache : Option ℚ) :
    (∀ t, cache = some t → UdpThermometerDriver.latest_temperature cache = .ok t) ∧
    (cache = none →
      UdpThermometerDriver.latest_temperature cache = .error "Нет данных от термометра") ∧
    (∀ e, UdpThermometerDriver.latest_temperature cache = .error e →
      cache = none ∧ e = "Нет данных от термометра") := by
  cases cache <;> simp [UdpThermometerDriver.latest_temperature]

/-- Witness for C6 at a filled cache (`21.5`) and at the empty cache. -/
theorem udp_latest_temperature_spec_witness :
    UdpThermometerDriver.latest_temperature (some (43 / 2)) = .ok (43 / 2) ∧
    UdpThermometerDriver.latest_temperature none = .error "Нет данных от термометра" :=
  ⟨(udp_latest_temperature_spec (some (43 / 2))).1 (43 / 2) rfl,
    (udp_latest_temperature_spec none).2.1 rfl⟩

/-- C7: one iteration of the UDP listener overwrites the cache with `t`
when the payload decodes and its trimmed text parses as `t`, and leaves
the cache untouched (surfacing nothing) when the payload is not valid
UTF-8 or does not parse. -/
theorem udp_listener_step_spec (parse : String → Option ℚ) (cache : Option ℚ)
    (s : String) :
    (∀ t, parse (rustTrim s) = some t →
      UdpThermometerDriver.listenStep parse cache (some s) = some t) ∧
    (parse (rustTrim s) = none →
      UdpThermometerDriver.listenStep parse cache (some s) = cache) ∧
    UdpThermometerDriver.listenStep parse cache none = cache := by
  refine ⟨fun t ht => ?_, fun hn => ?_, rfl⟩
  · simp [UdpThermometerDriver.listenStep, ht]
  · simp [UdpThermometerDriver.listenStep, hn]

/-- A tiny concrete stand-in for `str::parse::<f32>` used only to witness
the listener-step theorem on concrete payloads. -/
def witnessParse21 (s : String) : Option ℚ :=
  if s = "21" then some 21 else none

/-- Witness for C7: payload `" 21\n"` overwrites the cache, payload
`"not-a-number"` and an undecodable payload leave it at `some 3`. -/
theorem udp_listener_step_spec_witness :
    UdpThermometerDriver.listenStep witnessParse21 (some 3) (some " 21\n") = some 21 ∧
    UdpThermometerDriver.listenStep witnessParse21 (some 3) (some "not-a-number") = some 3 ∧
    UdpThermometerDriver.listenStep witnessParse21 (some 3) none = some 3 :=
  ⟨(udp_listener_step_spec witnessParse21 (some 3) " 21\n").1 21 (by decide),
    (udp_listener_step_spec witnessParse21 (some 3) "not-a-number").2.1 (by decide),
    (udp_listener_step_spec witnessParse21 (some 3) "not-a-number").2.2⟩

/-- C8: the facade read operations return the driver's value on success and
the defaults `false`/`0`/`0` on any driver error, never failing themselves,
while `turn_on`/`turn_off` turn a driver error into a hard fault (the
`expect` panic) and never report success on a failed driver call. -/
theorem facade_error_policy :
    (∀ b : Bool, SmartSocket.is_on (.ok b) = b) ∧
    (∀ e, SmartSocket.is_on (.error e) = false) ∧
    (∀ p : ℚ, SmartSocket.current_power (.ok p) = p) ∧
    (∀ e, SmartSocket.current_power (.error e) = 0) ∧
    (∀ t : ℚ, SmartThermometer.get_current_temperature (.ok t) = t) ∧
    (∀ e, SmartThermometer.get_current_temperature (.error e) = 0) ∧
    SmartSocket.turn_on (.ok ()) = .ok ∧
    (∀ e, SmartSocket.turn_on (.error e) = .fault "Ошибка включения розетки") ∧
    SmartSocket.turn_off (.ok ()) = .ok ∧
    (∀ e, SmartSocket.turn_off (.error e) = .fault "Ошибка выключения розетки") := by
  refine ⟨fun _ => rfl, fun _ => rfl, fun _ => rfl, fun _ => rfl, fun _ => rfl,
    fun _ => rfl, rfl, fun _ => rfl, rfl, fun _ => rfl⟩

/-- C9: `SmartHouse::get_device` fails with `RoomNotFound` exactly when the
room lookup fails, fails with `DeviceNotFound` exactly when the room exists
but the device lookup inside it fails, and otherwise returns the stored
device; being a pure read, it does not modify the house. -/
theorem house_get_device_spec (h : SmartHouse) (rn dn : String) :
    (mapGet rn h.rooms = none ↔
      h.get_device rn dn = .error (.RoomNotFound rn)) ∧
    (∀ r, mapGet rn h.rooms = some r →
      ((mapGet dn r.devices = none ↔
        h.get_device rn dn = .error (.DeviceNotFound rn dn)) ∧
       (∀ d, mapGet dn r.devices = some d → h.get_device rn dn = .ok d))) := by
  rcases hr : mapGet rn h.rooms with _ | r
  · simp [SmartHouse.get_device, hr]
  · rcases hd : mapGet dn r.devices with _ | d <;>
      simp [SmartHouse.get_device, hr, hd]

/-- Concrete room used only to witness the lookup theorem. -/
def witnessRoom : Room :=
  ⟨"kitchen", [("lamp", SmartDevice.Socket "lamp")]⟩

/-- Concrete one-room house used only to witness the lookup theorem. -/
def witnessHouse : SmartHouse :=
  ⟨[("kitchen", witnessRoom)]⟩

/-- Witness for C9: hit, missing room, and missing device on a concrete house. -/
theorem house_get_device_spec_witness :
    witnessHouse.get_device "kitchen" "lamp" = .ok (.Socket "lamp") ∧
    witnessHouse.get_device "garage" "lamp" = .error (.RoomNotFound "garage") ∧
    witnessHouse.get_device "kitchen" "tv" = .error (.DeviceNotFound "kitchen" "tv") :=
  ⟨((house_get_device_spec witnessHouse "kitchen" "lamp").2 witnessRoom
      (by decide)).2 (SmartDevice.Socket "lamp") (by decide),
    (house_get_device_spec witnessHouse "garage" "lamp").1.mp (by decide),
    ((house_get_device_spec witnessHouse "kitchen" "tv").2 witnessRoom
      (by decide)).1.mp (by decide)⟩

theorem applyCall_eq (st : SockState) (c : Call) :
    applyCall st c = ⟨c.isOn, st.wattage⟩ := by
  cases c <;> rfl

theorem applyCalls_append_last (st : SockState) (cs : List Call) (c : Call) :
    applyCalls st (cs ++ [c]) = ⟨c.isOn, st.wattage⟩ := by
  induction cs generalizing st with
  | nil => exact applyCall_eq st c
  | cons c' cs ih =>
    show applyCalls (applyCall st c') (cs ++ [c]) = _
    rw [applyCall_eq]
    exact ih ⟨c'.isOn, st.wattage⟩

theorem emuApplyCall_eq (fmt : ℚ → String) (st : SockState) (c : Call) :
    emuApplyCall fmt st c = applyCall st c := by
  cases c <;>
    simp +decide [emuApplyCall, handle_client, dispatch, Call.cmd, applyCall,
      rustTrim_on_lit, rustTrim_off_lit, MockSocketDriver.turn_on,
      MockSocketDriver.turn_off]

theorem emuApplyCalls_eq (fmt : ℚ → String) (st : SockState) (cs : List Call) :
    emuApplyCalls fmt st cs = applyCalls st cs := by
  induction cs generalizing st with
  | nil => rfl
  | cons c cs ih =>
    show emuApplyCalls fmt (emuApplyCall fmt st c) cs = _
    rw [emuApplyCall_eq]
    exact ih (applyCall st c)

theorem tcpRoundTripIsOn_eq (fmt : ℚ → String) (st : SockState) :
    tcpRoundTripIsOn fmt st = st.powered := by
  rcases st with ⟨p, w⟩
  cases p <;>
    simp +decide [tcpRoundTripIsOn, handle_client, dispatch, rustTrim_state_lit,
      TcpSocketDriver.is_on]

theorem tcpRoundTripPower_eq (fmt : ℚ → String) (parse : String → Option ℚ)
    (st : SockState) :
    tcpRoundTripPower fmt parse st =
      parse (rustTrim (fmt (if st.powered then st.wattage else 0))) := by
  rcases st with ⟨p, w⟩
  cases p <;>
    simp +decide [tcpRoundTripPower, handle_client, dispatch, rustTrim_power_lit,
      TcpSocketDriver.current_power]

/-- C4: after any non-empty sequence of `turn_on`/`turn_off` calls (written
`cs ++ [c]`), both against the mock driver and against the TCP emulator via
the TCP driver's commands, `is_on` reports `true` exactly when the last
call was `turn_on`, and `current_power` reports the configured wattage
exactly when the last call was `turn_on` and `0` otherwise. For the TCP
round trip the response formatting and driver parse are assumed to
round-trip on the two values the emulator can reply with. -/
theorem socket_call_sequences (fmt : ℚ → String) (parse : String → Option ℚ)
    (st : SockState) (cs : List Call) (c : Call)
    (hw : parse (rustTrim (fmt st.wattage)) = some st.wattage)
    (h0 : parse (rustTrim (fmt 0)) = some 0) :
    MockSocketDriver.is_on (applyCalls st (cs ++ [c])) = .ok c.isOn ∧
    MockSocketDriver.current_power (applyCalls st (cs ++ [c])) =
      .ok (if c.isOn then st.wattage else 0) ∧
    tcpRoundTripIsOn fmt (emuApplyCalls fmt st (cs ++ [c])) = c.isOn ∧
    tcpRoundTripPower fmt parse (emuApplyCalls fmt st (cs ++ [c])) =
      some (if c.isOn then st.wattage else 0) := by
  rw [emuApplyCalls_eq, applyCalls_append_last, tcpRoundTripIsOn_eq,
    tcpRoundTripPower_eq]
  refine ⟨rfl, rfl, rfl, ?_⟩
  cases c <;> simp [Call.isOn, hw, h0]

/-- Concrete formatter used only to witness the sequence theorem: renders
the two reachable power values the way `f32::to_string` renders them. -/
def witnessFmt (q : ℚ) : String :=
  if q = 5 then "5" else if q = 0 then "0" else "?"

/-- Concrete parser used only to witness the sequence theorem. -/
def witnessParse50 (s : String) : Option ℚ :=
  if s = "5" then some 5 else if s = "0" then some 0 else none

/-- Witness for C4: initial state `(true, 5)`, calls `turn_on` then
`turn_off`; afterwards the mock driver and the TCP round trip both report
off and power `0`. -/
theorem socket_call_sequences_witness :
    witnessParse50 (rustTrim (witnessFmt (SockState.mk true 5).wattage)) =
      some (SockState.mk true 5).wattage ∧
    witnessParse50 (rustTrim (witnessFmt 0)) = some 0 ∧
    (MockSocketDriver.is_on (applyCalls ⟨true, 5⟩ ([Call.on] ++ [Call.off])) =
      .ok Call.off.isOn ∧
     MockSocketDriver.current_power (applyCalls ⟨true, 5⟩ ([Call.on] ++ [Call.off])) =
      .ok (if Call.off.isOn then (SockState.mk true 5).wattage else 0) ∧
     tcpRoundTripIsOn witnessFmt
        (emuApplyCalls witnessFmt ⟨true, 5⟩ ([Call.on] ++ [Call.off])) = Call.off.isOn ∧
     tcpRoundTripPower witnessFmt witnessParse50
        (emuApplyCalls witnessFmt ⟨true, 5⟩ ([Call.on] ++ [Call.off])) =
      some (if Call.off.isOn then (SockState.mk true 5).wattage else 0)) :=
  ⟨by decide, by decide,
    socket_call_sequences witnessFmt witnessParse50 ⟨true, 5⟩ [Call.on] Call.off
      (by decide) (by decide)⟩

/-- Witness for C5: concrete peer responses — a padded `ON` is accepted,
`OFF` is not, and `current_power` is the parse of the trimmed reply. -/
theorem tcp_driver_decode_witness :
    TcpSocketDriver.is_on " ON\n" = true ∧
    TcpSocketDriver.is_on "OFF" = false ∧
    TcpSocketDriver.current_power witnessParse21 " 21 " = some 21 :=
  ⟨(tcp_driver_decode witnessParse21 " ON\n").1.mpr (by decide),
    (tcp_driver_decode witnessParse21 "OFF").2.1,
    ((tcp_driver_decode witnessParse21 " 21 ").2.2.2.1).trans (by decide)⟩
